import Mathlib

/-! SDS021 frame parser.

A shallow embedding of the byte-at-a-time frame parser of `src/sds021.cpp`
(`class SDS021Parser`), followed by theorems about it.

Machine integers are natural numbers; every place where the C++ code can
truncate or wrap (`uint8_t checksum`, `uint16_t pm25/pm10`, the `uint32_t`
counters) carries an explicit `% 2^w`.
-/

namespace SDS021

/-- The enum `parser_state_t` of `SDS021Parser` (sds021.cpp lines 71-82). -/
inductive parser_state_t where
  | sds021_state_want_header
  | sds021_state_want_command
  | sds021_state_want_data1
  | sds021_state_want_data2
  | sds021_state_want_data3
  | sds021_state_want_data4
  | sds021_state_want_data5
  | sds021_state_want_data6
  | sds021_state_want_checksum
  | sds021_state_want_tail
  deriving DecidableEq

open parser_state_t

/-- The class `SDS021Reading` (lines 48-53): two `uint16_t` fields. -/
structure SDS021Reading where
  pm25 : Nat
  pm10 : Nat
  deriving DecidableEq

/-- The data members of `class SDS021Parser` (lines 70-89). `bad_chars` and
`checksum_failures` are `uint32_t`, `checksum` is `uint8_t`. -/
structure SDS021Parser where
  serial_fd : Int
  state : parser_state_t
  bad_chars : Nat
  checksum_failures : Nat
  reading : SDS021Reading
  checksum : Nat
  deriving DecidableEq

/-- The constructor `SDS021Parser(int _serial_fd)` (lines 60-63). Its member
initialiser list sets `serial_fd` and `state` only; the other members are
default-initialised, which for scalar members means they keep whatever the
object's storage held. `storage` is that prior content. -/
def SDS021Parser.ctor (_serial_fd : Int) (storage : SDS021Parser) : SDS021Parser :=
  { storage with serial_fd := _serial_fd, state := sds021_state_want_header }

/-- The part of `yield_message` (lines 92-102) that depends on the parser: the
reading it reports. The timestamp and the text formatting are left out. -/
def SDS021Parser.yield_message (p : SDS021Parser) : SDS021Reading :=
  p.reading

/-- The body of `SDS021Parser::update` (lines 121-187) on the path where
`read` delivered one byte (`byte`). The result is the parser after the call and
the reading handed to `yield_message` during the call, if any. On the other
returning paths (`EAGAIN`, zero bytes read) the parser is left untouched. -/
def SDS021Parser.update (p : SDS021Parser) (byte : Nat) :
    SDS021Parser × Option SDS021Reading :=
  match p.state with
  | sds021_state_want_header =>
    if byte = 0xAA then
      ({ p with state := sds021_state_want_command }, none)
    else
      ({ p with bad_chars := (p.bad_chars + 1) % 2 ^ 32 }, none)
  | sds021_state_want_command =>
    if byte = 0xC0 then
      ({ p with state := sds021_state_want_data1 }, none)
    else
      ({ p with bad_chars := (p.bad_chars + 1) % 2 ^ 32,
                state := sds021_state_want_header }, none)
  | sds021_state_want_data1 =>
    ({ p with reading := { p.reading with pm25 := byte },
              state := sds021_state_want_data2,
              checksum := byte }, none)
  | sds021_state_want_data2 =>
    ({ p with reading := { p.reading with
                pm25 := (p.reading.pm25 ||| (byte <<< 8)) % 2 ^ 16 },
              state := sds021_state_want_data3,
              checksum := (p.checksum + byte) % 2 ^ 8 }, none)
  | sds021_state_want_data3 =>
    ({ p with reading := { p.reading with pm10 := byte },
              state := sds021_state_want_data4,
              checksum := (p.checksum + byte) % 2 ^ 8 }, none)
  | sds021_state_want_data4 =>
    ({ p with reading := { p.reading with
                pm10 := (p.reading.pm10 ||| (byte <<< 8)) % 2 ^ 16 },
              state := sds021_state_want_data5,
              checksum := (p.checksum + byte) % 2 ^ 8 }, none)
  | sds021_state_want_data5 =>
    ({ p with state := sds021_state_want_data6,
              checksum := (p.checksum + byte) % 2 ^ 8 }, none)
  | sds021_state_want_data6 =>
    ({ p with state := sds021_state_want_checksum,
              checksum := (p.checksum + byte) % 2 ^ 8 }, none)
  | sds021_state_want_checksum =>
    if byte ≠ p.checksum then
      ({ p with checksum_failures := (p.checksum_failures + 1) % 2 ^ 32,
                state := sds021_state_want_header }, none)
    else
      let p1 := { p with state := sds021_state_want_tail }
      (p1, some p1.yield_message)
  | sds021_state_want_tail =>
    if byte ≠ 0xAB then
      ({ p with bad_chars := (p.bad_chars + 1) % 2 ^ 32,
                state := sds021_state_want_header }, none)
    else
      ({ p with state := sds021_state_want_header }, none)

/-- The loop `while (1) { parser.update(); }` of `main` (lines 200-202) over the
bytes the serial port delivers, in order: the parser after the last byte and,
for each byte, what that call reported. -/
def SDS021Parser.feed : SDS021Parser → List Nat → SDS021Parser × List (Option SDS021Reading)
  | p, [] => (p, [])
  | p, byte :: rest =>
    let r := p.update byte
    let q := SDS021Parser.feed r.1 rest
    (q.1, r.2 :: q.2)

/-- A valid ten-byte frame carrying the six data bytes, as the sensor sends it:
header `0xAA`, command `0xC0`, the data, their sum modulo 256, tail `0xAB`. -/
def valid_frame (d1 d2 d3 d4 d5 d6 : Nat) : List Nat :=
  [0xAA, 0xC0, d1, d2, d3, d4, d5, d6, (d1 + d2 + d3 + d4 + d5 + d6) % 256, 0xAB]

/-- The reading a valid frame carries: both fields little-endian. -/
def frame_reading (d1 d2 d3 d4 : Nat) : SDS021Reading :=
  { pm25 := d1 + 256 * d2, pm10 := d3 + 256 * d4 }

/-- The per-byte reports of a frame decoded in step: nothing on the first eight
bytes, the reading on the ninth, nothing on the tenth. -/
def frame_reports (r : SDS021Reading) : List (Option SDS021Reading) :=
  [none, none, none, none, none, none, none, none, some r, none]

/-- What the running checksum holds in each state, in terms of the bytes fed so
far: inside a frame the bytes fed end with the accepted header 0xAA, the command
0xC0 and the k data bytes consumed since, and from the first data byte on
`checksum` is the sum of those k bytes modulo 256 (the first alone is stored as
it is). -/
def checksum_tracks (p : SDS021Parser) (bytes : List Nat) : Prop :=
  match p.state with
  | sds021_state_want_command =>
    ∃ pre, bytes = pre ++ [0xAA]
  | sds021_state_want_data1 =>
    ∃ pre, bytes = pre ++ [0xAA, 0xC0]
  | sds021_state_want_data2 =>
    ∃ pre d1, bytes = pre ++ [0xAA, 0xC0, d1] ∧ p.checksum = d1
  | sds021_state_want_data3 =>
    ∃ pre d1 d2, bytes = pre ++ [0xAA, 0xC0, d1, d2] ∧ p.checksum = (d1 + d2) % 256
  | sds021_state_want_data4 =>
    ∃ pre d1 d2 d3, bytes = pre ++ [0xAA, 0xC0, d1, d2, d3]
      ∧ p.checksum = (d1 + d2 + d3) % 256
  | sds021_state_want_data5 =>
    ∃ pre d1 d2 d3 d4, bytes = pre ++ [0xAA, 0xC0, d1, d2, d3, d4]
      ∧ p.checksum = (d1 + d2 + d3 + d4) % 256
  | sds021_state_want_data6 =>
    ∃ pre d1 d2 d3 d4 d5, bytes = pre ++ [0xAA, 0xC0, d1, d2, d3, d4, d5]
      ∧ p.checksum = (d1 + d2 + d3 + d4 + d5) % 256
  | sds021_state_want_checksum =>
    ∃ pre d1 d2 d3 d4 d5 d6, bytes = pre ++ [0xAA, 0xC0, d1, d2, d3, d4, d5, d6]
      ∧ p.checksum = (d1 + d2 + d3 + d4 + d5 + d6) % 256
  | _ => True

/-- A measure on the states for input without a header byte: the largest number
of bytes other than 0xAA after which the parser can still be outside the
want-header state, plus nothing for want-header itself. From want-command the
longest way back is 0xC0, six data bytes, a matching checksum and a tail. -/
def resync_distance : parser_state_t → Nat
  | sds021_state_want_header => 0
  | sds021_state_want_command => 9
  | sds021_state_want_data1 => 8
  | sds021_state_want_data2 => 7
  | sds021_state_want_data3 => 6
  | sds021_state_want_data4 => 5
  | sds021_state_want_data5 => 4
  | sds021_state_want_data6 => 3
  | sds021_state_want_checksum => 2
  | sds021_state_want_tail => 1

/-- A measure on the states for the next report: the least number of further
bytes after which a reading can be reported (the checksum byte of the frame in
progress, or of the next frame when none is in progress). -/
def emission_wait : parser_state_t → Nat
  | sds021_state_want_header => 9
  | sds021_state_want_command => 8
  | sds021_state_want_data1 => 7
  | sds021_state_want_data2 => 6
  | sds021_state_want_data3 => 5
  | sds021_state_want_data4 => 4
  | sds021_state_want_data5 => 3
  | sds021_state_want_data6 => 2
  | sds021_state_want_checksum => 1
  | sds021_state_want_tail => 10

/-! ## Arithmetic of the two little-endian fields and of the checksum -/

/-- Or-ing a high byte shifted by eight bits onto a low byte, within sixteen
bits, is the little-endian value of the two bytes. -/
theorem or_shift_eq_le16 (lo hi : Nat) (hlo : lo < 256) (hhi : hi < 256) :
    (lo ||| (hi <<< 8)) % 2 ^ 16 = lo + 256 * hi := by
  have hor : 2 ^ 8 * hi ||| lo = 2 ^ 8 * hi + lo :=
    (Nat.mul_add_lt_is_or (by simpa using hlo) hi).symm
  rw [Nat.shiftLeft_eq, Nat.or_comm, Nat.mul_comm hi, hor]
  have : 2 ^ 8 * hi + lo < 2 ^ 16 := by norm_num; omega
  rw [Nat.mod_eq_of_lt this]
  norm_num; omega

/-- Feeding a concatenation: feed the first part, then the second from where the
first left the parser. -/
theorem feed_append (p : SDS021Parser) (xs ys : List Nat) :
    p.feed (xs ++ ys) =
      ((SDS021Parser.feed (p.feed xs).1 ys).1,
        (p.feed xs).2 ++ (SDS021Parser.feed (p.feed xs).1 ys).2) := by
  induction xs generalizing p with
  | nil => simp [SDS021Parser.feed]
  | cons x xs ih => simp [SDS021Parser.feed, ih]

/-- A valid frame met in the want-header state: the parser after it, and what
each of its ten bytes reported. -/
theorem feed_valid_frame (p : SDS021Parser) (d1 d2 d3 d4 d5 d6 : Nat)
    (h1 : d1 < 256) (h2 : d2 < 256) (h3 : d3 < 256) (h4 : d4 < 256)
    (hs : p.state = sds021_state_want_header) :
    p.feed (valid_frame d1 d2 d3 d4 d5 d6) =
      ({ p with reading := frame_reading d1 d2 d3 d4,
                checksum := (d1 + d2 + d3 + d4 + d5 + d6) % 256 },
        frame_reports (frame_reading d1 d2 d3 d4)) := by
  have e25 : (d1 ||| d2 <<< 8) % 65536 = d1 + 256 * d2 := or_shift_eq_le16 d1 d2 h1 h2
  have e10 : (d3 ||| d4 <<< 8) % 65536 = d3 + 256 * d4 := or_shift_eq_le16 d3 d4 h3 h4
  obtain ⟨fd, st, bc, cf, rd, ck⟩ := p
  simp only at hs
  subst hs
  simp [SDS021Parser.feed, SDS021Parser.update, valid_frame, frame_reports, frame_reading,
    SDS021Parser.yield_message, e25, e10]

/-- Feeding one more byte at the end is one more call of update. -/
theorem feed_concat_fst (p : SDS021Parser) (bytes : List Nat) (b : Nat) :
    (p.feed (bytes ++ [b])).1 = ((p.feed bytes).1.update b).1 := by
  rw [feed_append]
  simp [SDS021Parser.feed]

/-- One call of update keeps `checksum_tracks`, with the byte added to the bytes
fed. -/
theorem checksum_tracks_update (p : SDS021Parser) (bytes : List Nat) (b : Nat)
    (h : checksum_tracks p bytes) : checksum_tracks (p.update b).1 (bytes ++ [b]) := by
  obtain ⟨fd, st, bc, cf, rd, ck⟩ := p
  cases st
  case sds021_state_want_header =>
    by_cases hb : b = 0xAA
    · subst hb
      exact ⟨bytes, rfl⟩
    · simp [SDS021Parser.update, checksum_tracks, hb]
  case sds021_state_want_command =>
    by_cases hb : b = 0xC0
    · subst hb
      obtain ⟨pre, hpre⟩ := h
      subst hpre
      exact ⟨pre, by simp⟩
    · simp [SDS021Parser.update, checksum_tracks, hb]
  case sds021_state_want_data1 =>
    obtain ⟨pre, hpre⟩ := h
    subst hpre
    exact ⟨pre, b, by simp, rfl⟩
  case sds021_state_want_data2 =>
    obtain ⟨pre, d1, hpre, hck⟩ := h
    simp only at hck
    subst hpre hck
    exact ⟨pre, ck, b, by simp, by simp [SDS021Parser.update]⟩
  case sds021_state_want_data3 =>
    obtain ⟨pre, d1, d2, hpre, hck⟩ := h
    simp only at hck
    subst hpre hck
    exact ⟨pre, d1, d2, b, by simp, by simp [SDS021Parser.update]⟩
  case sds021_state_want_data4 =>
    obtain ⟨pre, d1, d2, d3, hpre, hck⟩ := h
    simp only at hck
    subst hpre hck
    exact ⟨pre, d1, d2, d3, b, by simp, by simp [SDS021Parser.update]⟩
  case sds021_state_want_data5 =>
    obtain ⟨pre, d1, d2, d3, d4, hpre, hck⟩ := h
    simp only at hck
    subst hpre hck
    exact ⟨pre, d1, d2, d3, d4, b, by simp, by simp [SDS021Parser.update]⟩
  case sds021_state_want_data6 =>
    obtain ⟨pre, d1, d2, d3, d4, d5, hpre, hck⟩ := h
    simp only at hck
    subst hpre hck
    exact ⟨pre, d1, d2, d3, d4, d5, b, by simp, by simp [SDS021Parser.update]⟩
  case sds021_state_want_checksum =>
    by_cases hb : b = ck <;> simp [SDS021Parser.update, checksum_tracks, hb]
  case sds021_state_want_tail =>
    by_cases hb : b = 0xAB <;> simp [SDS021Parser.update, checksum_tracks, hb]

/-- Every state reached from a freshly constructed parser satisfies
`checksum_tracks` with the bytes fed. -/
theorem checksum_tracks_feed (_serial_fd : Int) (storage : SDS021Parser) (bytes : List Nat) :
    checksum_tracks ((SDS021Parser.ctor _serial_fd storage).feed bytes).1 bytes := by
  induction bytes using List.reverseRecOn with
  | nil => simp [SDS021Parser.feed, SDS021Parser.ctor, checksum_tracks]
  | append_singleton bytes b ih =>
    rw [feed_concat_fst]
    exact checksum_tracks_update _ bytes b ih

/-- Bytes other than 0xAA met in the want-header state: each one is counted in
`bad_chars` (a 32-bit counter), nothing else changes and nothing is reported. -/
theorem feed_noise (p : SDS021Parser) (bytes : List Nat)
    (hs : p.state = sds021_state_want_header) (hw : p.bad_chars < 2 ^ 32)
    (hb : ∀ b ∈ bytes, b ≠ 0xAA) :
    p.feed bytes =
      ({ p with bad_chars := (p.bad_chars + bytes.length) % 2 ^ 32 },
        List.replicate bytes.length none) := by
  induction bytes generalizing p with
  | nil =>
    obtain ⟨fd, st, bc, cf, rd, ck⟩ := p
    simp only at hw
    have hm : bc % 4294967296 = bc := Nat.mod_eq_of_lt (by simpa using hw)
    simp [SDS021Parser.feed, hm]
  | cons b bs ih =>
    have hb0 : ¬ b = 0xAA := hb b (by simp)
    have hbs : ∀ x ∈ bs, x ≠ 0xAA := fun x hx => hb x (by simp [hx])
    obtain ⟨fd, st, bc, cf, rd, ck⟩ := p
    simp only at hs hw
    subst hs
    have hu : SDS021Parser.update ⟨fd, sds021_state_want_header, bc, cf, rd, ck⟩ b
        = (⟨fd, sds021_state_want_header, (bc + 1) % 2 ^ 32, cf, rd, ck⟩, none) := by
      simp [SDS021Parser.update, hb0]
    have hlt : (bc + 1) % 2 ^ 32 < 2 ^ 32 := Nat.mod_lt _ (by norm_num)
    have h := ih ⟨fd, sds021_state_want_header, (bc + 1) % 2 ^ 32, cf, rd, ck⟩ rfl hlt hbs
    have harith : ((bc + 1) % 2 ^ 32 + bs.length) % 2 ^ 32
        = (bc + (bs.length + 1)) % 2 ^ 32 := by omega
    simp only [SDS021Parser.feed, hu, h, harith, List.length_cons, List.replicate_succ]

/-! ## Claims -/

/-- C1 (valid frame round trip): a valid ten-byte frame AA C0 d1..d6 cs AB, with
cs the sum of d1..d6 modulo 256, fed to a parser in the want-header state reports
exactly one reading, on the ninth byte and on no other, namely
pm25 = d1 + 256*d2 and pm10 = d3 + 256*d4; both counters are unchanged and the
parser is back in the want-header state. (d5 and d6 need no bound.) -/
theorem valid_frame_round_trip (p : SDS021Parser) (d1 d2 d3 d4 d5 d6 : Nat)
    (h1 : d1 < 256) (h2 : d2 < 256) (h3 : d3 < 256) (h4 : d4 < 256)
    (hs : p.state = sds021_state_want_header) :
    (p.feed [0xAA, 0xC0, d1, d2, d3, d4, d5, d6, (d1 + d2 + d3 + d4 + d5 + d6) % 256, 0xAB]).2
        = [none, none, none, none, none, none, none, none,
            some { pm25 := d1 + 256 * d2, pm10 := d3 + 256 * d4 }, none]
      ∧ (p.feed [0xAA, 0xC0, d1, d2, d3, d4, d5, d6,
          (d1 + d2 + d3 + d4 + d5 + d6) % 256, 0xAB]).1.bad_chars = p.bad_chars
      ∧ (p.feed [0xAA, 0xC0, d1, d2, d3, d4, d5, d6,
          (d1 + d2 + d3 + d4 + d5 + d6) % 256, 0xAB]).1.checksum_failures
            = p.checksum_failures
      ∧ (p.feed [0xAA, 0xC0, d1, d2, d3, d4, d5, d6,
          (d1 + d2 + d3 + d4 + d5 + d6) % 256, 0xAB]).1.state = sds021_state_want_header := by
  have hf := feed_valid_frame p d1 d2 d3 d4 d5 d6 h1 h2 h3 h4 hs
  simp only [valid_frame] at hf
  rw [hf]
  exact ⟨rfl, rfl, rfl, hs⟩

/-- The frame AA C0 7D 00 32 00 11 22 E2 AB gives the reading pm25 = 125,
pm10 = 50, whatever the counters were (here 7 and 9). -/
theorem valid_frame_round_trip_witness :
    (SDS021Parser.feed ⟨3, sds021_state_want_header, 7, 9, ⟨1, 2⟩, 5⟩
        [0xAA, 0xC0, 0x7D, 0x00, 0x32, 0x00, 0x11, 0x22, 0xE2, 0xAB]).2
        = [none, none, none, none, none, none, none, none,
            some { pm25 := 125, pm10 := 50 }, none]
      ∧ (SDS021Parser.feed ⟨3, sds021_state_want_header, 7, 9, ⟨1, 2⟩, 5⟩
        [0xAA, 0xC0, 0x7D, 0x00, 0x32, 0x00, 0x11, 0x22, 0xE2, 0xAB]).1.bad_chars = 7
      ∧ (SDS021Parser.feed ⟨3, sds021_state_want_header, 7, 9, ⟨1, 2⟩, 5⟩
        [0xAA, 0xC0, 0x7D, 0x00, 0x32, 0x00, 0x11, 0x22, 0xE2, 0xAB]).1.checksum_failures = 9
      ∧ (SDS021Parser.feed ⟨3, sds021_state_want_header, 7, 9, ⟨1, 2⟩, 5⟩
        [0xAA, 0xC0, 0x7D, 0x00, 0x32, 0x00, 0x11, 0x22, 0xE2, 0xAB]).1.state
          = sds021_state_want_header :=
  valid_frame_round_trip ⟨3, sds021_state_want_header, 7, 9, ⟨1, 2⟩, 5⟩
    0x7D 0x00 0x32 0x00 0x11 0x22 (by decide) (by decide) (by decide) (by decide) rfl

/-- C2 (emission criterion): one call of update reports a reading if and only
if the parser is in the want-checksum state and the byte equals the running
checksum; the reading reported is the pending one and the parser moves to the
want-tail state. In every other state, and on a mismatching checksum byte,
nothing is reported; in particular nothing is reported in the want-tail
state. -/
theorem emission_criterion (p : SDS021Parser) (byte : Nat) :
    ((p.update byte).2.isSome = true
        ↔ (p.state = sds021_state_want_checksum ∧ byte = p.checksum))
      ∧ (p.update byte).2
          = (if p.state = sds021_state_want_checksum ∧ byte = p.checksum
              then some p.reading else none)
      ∧ ((p.update byte).2.isSome = true →
          (p.update byte).1.state = sds021_state_want_tail)
      ∧ (p.state = sds021_state_want_tail → (p.update byte).2 = none) := by
  obtain ⟨fd, st, bc, cf, rd, ck⟩ := p
  cases st <;>
    simp [SDS021Parser.update, SDS021Parser.yield_message] <;>
    split <;> simp_all

/-- C3, as stated, fails when the failure counter is at its largest value: the
frame AA C0 7D 00 32 00 11 22 00 (bad checksum 00 for E2) met with
checksum_failures = 4294967295 leaves the counter at 0, not one higher. -/
theorem checksum_failure_counter_wraps :
    (SDS021Parser.feed ⟨3, sds021_state_want_header, 0, 4294967295, ⟨0, 0⟩, 0⟩
        [0xAA, 0xC0, 0x7D, 0x00, 0x32, 0x00, 0x11, 0x22, 0x00]).1.checksum_failures = 0
      ∧ (SDS021Parser.feed ⟨3, sds021_state_want_header, 0, 4294967295, ⟨0, 0⟩, 0⟩
        [0xAA, 0xC0, 0x7D, 0x00, 0x32, 0x00, 0x11, 0x22, 0x00]).1.checksum_failures
          ≠ 4294967295 + 1 := by
  decide

/-- C3 (checksum failure, amended): the nine bytes AA C0 d1..d6 c with c not the
sum of d1..d6 modulo 256, fed to a parser in the want-header state, report no
reading on any byte, take checksum_failures to (checksum_failures + 1) mod 2^32
(one more whenever that does not exceed the 32-bit counter), leave bad_chars
unchanged and leave the parser in the want-header state, so that a valid frame
fed right afterwards reports its reading on its ninth byte. -/
theorem checksum_failure_frame (p : SDS021Parser) (d1 d2 d3 d4 d5 d6 c : Nat)
    (hc : c ≠ (d1 + d2 + d3 + d4 + d5 + d6) % 256)
    (hs : p.state = sds021_state_want_header) :
    (p.feed [0xAA, 0xC0, d1, d2, d3, d4, d5, d6, c]).2
        = [none, none, none, none, none, none, none, none, none]
      ∧ (p.feed [0xAA, 0xC0, d1, d2, d3, d4, d5, d6, c]).1.checksum_failures
          = (p.checksum_failures + 1) % 2 ^ 32
      ∧ (p.checksum_failures + 1 < 2 ^ 32 →
          (p.feed [0xAA, 0xC0, d1, d2, d3, d4, d5, d6, c]).1.checksum_failures
            = p.checksum_failures + 1)
      ∧ (p.feed [0xAA, 0xC0, d1, d2, d3, d4, d5, d6, c]).1.bad_chars = p.bad_chars
      ∧ (p.feed [0xAA, 0xC0, d1, d2, d3, d4, d5, d6, c]).1.state = sds021_state_want_header
      ∧ ∀ e1 e2 e3 e4 e5 e6 : Nat, e1 < 256 → e2 < 256 → e3 < 256 → e4 < 256 →
          (SDS021Parser.feed (p.feed [0xAA, 0xC0, d1, d2, d3, d4, d5, d6, c]).1
              [0xAA, 0xC0, e1, e2, e3, e4, e5, e6, (e1 + e2 + e3 + e4 + e5 + e6) % 256, 0xAB]).2
            = [none, none, none, none, none, none, none, none,
                some { pm25 := e1 + 256 * e2, pm10 := e3 + 256 * e4 }, none] := by
  have hst : (p.feed [0xAA, 0xC0, d1, d2, d3, d4, d5, d6, c]).1.state
      = sds021_state_want_header := by
    obtain ⟨fd, st, bc, cf, rd, ck⟩ := p
    simp only at hs
    subst hs
    have hc2 : ¬ c = (d1 + d2 + d3 + d4 + d5 + d6) % 256 := hc
    simp [SDS021Parser.feed, SDS021Parser.update, hc2]
  refine ⟨?_, ?_, ?_, ?_, hst, ?_⟩
  · obtain ⟨fd, st, bc, cf, rd, ck⟩ := p
    simp only at hs
    subst hs
    simp [SDS021Parser.feed, SDS021Parser.update, hc]
  · obtain ⟨fd, st, bc, cf, rd, ck⟩ := p
    simp only at hs
    subst hs
    simp [SDS021Parser.feed, SDS021Parser.update, hc]
  · intro hlt
    obtain ⟨fd, st, bc, cf, rd, ck⟩ := p
    simp only at hs hlt
    subst hs
    simp [SDS021Parser.feed, SDS021Parser.update, hc]
    omega
  · obtain ⟨fd, st, bc, cf, rd, ck⟩ := p
    simp only at hs
    subst hs
    simp [SDS021Parser.feed, SDS021Parser.update, hc]
  · intro e1 e2 e3 e4 e5 e6 g1 g2 g3 g4
    have hf := feed_valid_frame (p.feed [0xAA, 0xC0, d1, d2, d3, d4, d5, d6, c]).1
      e1 e2 e3 e4 e5 e6 g1 g2 g3 g4 hst
    simp only [valid_frame] at hf
    rw [hf]
    rfl

/-- The frame AA C0 7D 00 32 00 11 22 with checksum byte 00 in place of E2, met
with checksum_failures = 9. -/
theorem checksum_failure_frame_witness :
    (SDS021Parser.feed ⟨3, sds021_state_want_header, 7, 9, ⟨1, 2⟩, 5⟩
        [0xAA, 0xC0, 0x7D, 0x00, 0x32, 0x00, 0x11, 0x22, 0x00]).1.checksum_failures
      = (9 + 1) % 2 ^ 32 :=
  (checksum_failure_frame ⟨3, sds021_state_want_header, 7, 9, ⟨1, 2⟩, 5⟩
    0x7D 0x00 0x32 0x00 0x11 0x22 0x00 (by decide) rfl).2.1

/-- C4, as stated, fails: after the single byte AA a fresh parser awaits the
command byte, and the valid frame AA C0 7D 00 32 00 11 22 E2 AB fed right after
it is rejected byte by byte; its reading pm25 = 125, pm10 = 50 is never
reported. -/
theorem resync_fails_mid_frame :
    (SDS021Parser.feed
        (SDS021Parser.feed
          (SDS021Parser.ctor 3 ⟨0, sds021_state_want_header, 0, 0, ⟨0, 0⟩, 0⟩) [0xAA]).1
        [0xAA, 0xC0, 0x7D, 0x00, 0x32, 0x00, 0x11, 0x22, 0xE2, 0xAB]).2
      = [none, none, none, none, none, none, none, none, none, none]
    ∧ some (frame_reading 0x7D 0x00 0x32 0x00) ∉
        (SDS021Parser.feed
          (SDS021Parser.feed
            (SDS021Parser.ctor 3 ⟨0, sds021_state_want_header, 0, 0, ⟨0, 0⟩, 0⟩) [0xAA]).1
          [0xAA, 0xC0, 0x7D, 0x00, 0x32, 0x00, 0x11, 0x22, 0xE2, 0xAB]).2 := by
  decide

/-- C5: the constructor sets the state to want-header but leaves both counters
at whatever the object's storage held; with 7 and 9 there, the fresh parser has
bad_chars = 7 and checksum_failures = 9, not 0. -/
theorem ctor_leaves_counters_unset :
    (SDS021Parser.ctor 3 ⟨0, sds021_state_want_tail, 7, 9, ⟨1, 2⟩, 5⟩).state
        = sds021_state_want_header
      ∧ (SDS021Parser.ctor 3 ⟨0, sds021_state_want_tail, 7, 9, ⟨1, 2⟩, 5⟩).bad_chars = 7
      ∧ (SDS021Parser.ctor 3 ⟨0, sds021_state_want_tail, 7, 9, ⟨1, 2⟩, 5⟩).checksum_failures = 9
      ∧ ∀ (fd : Int) (storage : SDS021Parser),
          (SDS021Parser.ctor fd storage).state = sds021_state_want_header
            ∧ (SDS021Parser.ctor fd storage).bad_chars = storage.bad_chars
            ∧ (SDS021Parser.ctor fd storage).checksum_failures = storage.checksum_failures :=
  ⟨rfl, rfl, rfl, fun _ _ => ⟨rfl, rfl, rfl⟩⟩

/-- C6 (payload assembly): six bytes fed to a parser in the want-data1 state,
whatever its pending reading holds, are accepted without a test: nothing is
reported, neither counter changes, the state ends at want-checksum and the
pending reading is pm25 = d1 + 256*d2, pm10 = d3 + 256*d4; d5 and d6 appear in
neither field. -/
theorem payload_assembly (p : SDS021Parser) (d1 d2 d3 d4 d5 d6 : Nat)
    (h1 : d1 < 256) (h2 : d2 < 256) (h3 : d3 < 256) (h4 : d4 < 256)
    (hs : p.state = sds021_state_want_data1) :
    (p.feed [d1, d2, d3, d4, d5, d6]).2 = [none, none, none, none, none, none]
      ∧ (p.feed [d1, d2, d3, d4, d5, d6]).1.bad_chars = p.bad_chars
      ∧ (p.feed [d1, d2, d3, d4, d5, d6]).1.checksum_failures = p.checksum_failures
      ∧ (p.feed [d1, d2, d3, d4, d5, d6]).1.state = sds021_state_want_checksum
      ∧ (p.feed [d1, d2, d3, d4, d5, d6]).1.reading
          = { pm25 := d1 + 256 * d2, pm10 := d3 + 256 * d4 } := by
  have e25 : (d1 ||| d2 <<< 8) % 65536 = d1 + 256 * d2 := or_shift_eq_le16 d1 d2 h1 h2
  have e10 : (d3 ||| d4 <<< 8) % 65536 = d3 + 256 * d4 := or_shift_eq_le16 d3 d4 h3 h4
  obtain ⟨fd, st, bc, cf, rd, ck⟩ := p
  simp only at hs
  subst hs
  simp [SDS021Parser.feed, SDS021Parser.update, e25, e10]

/-- The payload AA C0 AB AA 11 22 met in the want-data1 state with a stale
pending reading (pm25 = 65535, pm10 = 4660): the framing values are taken as
data, pm25 = 0xC0AA and pm10 = 0xAAAB. -/
theorem payload_assembly_witness :
    (SDS021Parser.feed ⟨3, sds021_state_want_data1, 7, 9, ⟨65535, 4660⟩, 5⟩
        [0xAA, 0xC0, 0xAB, 0xAA, 0x11, 0x22]).1.reading = { pm25 := 0xC0AA, pm10 := 0xAAAB }
      ∧ (SDS021Parser.feed ⟨3, sds021_state_want_data1, 7, 9, ⟨65535, 4660⟩, 5⟩
        [0xAA, 0xC0, 0xAB, 0xAA, 0x11, 0x22]).1.state = sds021_state_want_checksum :=
  ⟨(payload_assembly ⟨3, sds021_state_want_data1, 7, 9, ⟨65535, 4660⟩, 5⟩
      0xAA 0xC0 0xAB 0xAA 0x11 0x22 (by decide) (by decide) (by decide) (by decide) rfl).2.2.2.2,
    (payload_assembly ⟨3, sds021_state_want_data1, 7, 9, ⟨65535, 4660⟩, 5⟩
      0xAA 0xC0 0xAB 0xAA 0x11 0x22 (by decide) (by decide) (by decide) (by decide) rfl).2.2.2.1⟩

/-- C7 (checksum invariant): in every state reached from a freshly constructed
parser (whatever its storage held, a left-over checksum included) whose state is
want-checksum, the bytes fed end with an accepted header AA, the command C0 and
six payload bytes, and the running checksum is the sum modulo 256 of exactly
those last six bytes. -/
theorem checksum_invariant (_serial_fd : Int) (storage : SDS021Parser) (bytes : List Nat)
    (hs : ((SDS021Parser.ctor _serial_fd storage).feed bytes).1.state
      = sds021_state_want_checksum) :
    ∃ pre d1 d2 d3 d4 d5 d6, bytes = pre ++ [0xAA, 0xC0, d1, d2, d3, d4, d5, d6]
      ∧ ((SDS021Parser.ctor _serial_fd storage).feed bytes).1.checksum
          = (d1 + d2 + d3 + d4 + d5 + d6) % 256 := by
  have h := checksum_tracks_feed _serial_fd storage bytes
  unfold checksum_tracks at h
  rw [hs] at h
  exact h

/-- A second frame's payload 01 02 03 04 05 06 after a first frame whose
checksum was E2, on storage that held checksum 5: the running checksum is that
of the last six bytes. -/
theorem checksum_invariant_witness :
    ∃ pre d1 d2 d3 d4 d5 d6,
      [0xAA, 0xC0, 0x7D, 0x00, 0x32, 0x00, 0x11, 0x22, 0xE2, 0xAB,
        0xAA, 0xC0, 0x01, 0x02, 0x03, 0x04, 0x05, 0x06]
          = pre ++ [0xAA, 0xC0, d1, d2, d3, d4, d5, d6]
      ∧ ((SDS021Parser.ctor 3 ⟨0, sds021_state_want_tail, 7, 9, ⟨1, 2⟩, 5⟩).feed
          [0xAA, 0xC0, 0x7D, 0x00, 0x32, 0x00, 0x11, 0x22, 0xE2, 0xAB,
            0xAA, 0xC0, 0x01, 0x02, 0x03, 0x04, 0x05, 0x06]).1.checksum
          = (d1 + d2 + d3 + d4 + d5 + d6) % 256 :=
  checksum_invariant 3 ⟨0, sds021_state_want_tail, 7, 9, ⟨1, 2⟩, 5⟩
    [0xAA, 0xC0, 0x7D, 0x00, 0x32, 0x00, 0x11, 0x22, 0xE2, 0xAB,
      0xAA, 0xC0, 0x01, 0x02, 0x03, 0x04, 0x05, 0x06] (by decide)

/-- C8, as stated, fails when the counter is at its largest value: one byte 00
met in the want-header state with bad_chars = 4294967295 leaves the counter at
0, not one higher. -/
theorem noise_counter_wraps :
    (SDS021Parser.feed ⟨3, sds021_state_want_header, 4294967295, 0, ⟨0, 0⟩, 0⟩
        [0x00]).1.bad_chars = 0
      ∧ (SDS021Parser.feed ⟨3, sds021_state_want_header, 4294967295, 0, ⟨0, 0⟩, 0⟩
        [0x00]).1.bad_chars ≠ 4294967295 + 1 := by
  decide

/-- C8 (noise before header, amended): n bytes, none of them 0xAA, fed to a
parser in the want-header state whose bad_chars is a 32-bit value, take bad_chars
to (bad_chars + n) mod 2^32 (exactly n more whenever that does not exceed the
32-bit counter), leave checksum_failures unchanged, report no reading and leave
the parser in the want-header state, so that a valid frame fed afterwards
reports its reading on its ninth byte. -/
theorem noise_before_header (p : SDS021Parser) (bytes : List Nat)
    (hb : ∀ b ∈ bytes, b ≠ 0xAA)
    (hs : p.state = sds021_state_want_header) (hw : p.bad_chars < 2 ^ 32) :
    (p.feed bytes).1.bad_chars = (p.bad_chars + bytes.length) % 2 ^ 32
      ∧ (p.bad_chars + bytes.length < 2 ^ 32 →
          (p.feed bytes).1.bad_chars = p.bad_chars + bytes.length)
      ∧ (p.feed bytes).1.checksum_failures = p.checksum_failures
      ∧ (p.feed bytes).2 = List.replicate bytes.length none
      ∧ (p.feed bytes).1.state = sds021_state_want_header
      ∧ ∀ e1 e2 e3 e4 e5 e6 : Nat, e1 < 256 → e2 < 256 → e3 < 256 → e4 < 256 →
          (SDS021Parser.feed (p.feed bytes).1
              [0xAA, 0xC0, e1, e2, e3, e4, e5, e6, (e1 + e2 + e3 + e4 + e5 + e6) % 256, 0xAB]).2
            = [none, none, none, none, none, none, none, none,
                some { pm25 := e1 + 256 * e2, pm10 := e3 + 256 * e4 }, none] := by
  have hf := feed_noise p bytes hs hw hb
  have hst : (p.feed bytes).1.state = sds021_state_want_header := by rw [hf]; exact hs
  refine ⟨by rw [hf], ?_, by rw [hf], by rw [hf], hst, ?_⟩
  · intro hlt
    rw [hf]
    exact Nat.mod_eq_of_lt hlt
  · intro e1 e2 e3 e4 e5 e6 g1 g2 g3 g4
    have hv := feed_valid_frame (p.feed bytes).1 e1 e2 e3 e4 e5 e6 g1 g2 g3 g4 hst
    simp only [valid_frame] at hv
    rw [hv]
    rfl

/-- Three noise bytes 00 FF C0 before a frame, met with bad_chars = 7. -/
theorem noise_before_header_witness :
    (SDS021Parser.feed ⟨3, sds021_state_want_header, 7, 9, ⟨1, 2⟩, 5⟩
        [0x00, 0xFF, 0xC0]).1.bad_chars = (7 + 3) % 2 ^ 32
      ∧ (SDS021Parser.feed ⟨3, sds021_state_want_header, 7, 9, ⟨1, 2⟩, 5⟩
        [0x00, 0xFF, 0xC0]).2 = [none, none, none] :=
  ⟨(noise_before_header ⟨3, sds021_state_want_header, 7, 9, ⟨1, 2⟩, 5⟩ [0x00, 0xFF, 0xC0]
      (by decide) rfl (by decide)).1,
    (noise_before_header ⟨3, sds021_state_want_header, 7, 9, ⟨1, 2⟩, 5⟩ [0x00, 0xFF, 0xC0]
      (by decide) rfl (by decide)).2.2.2.1⟩

/-- C9, as stated, fails when the counter is at its largest value: AA 00 met in
the want-header state with bad_chars = 4294967295 leaves the counter at 0, not
one higher. -/
theorem bad_command_counter_wraps :
    (SDS021Parser.feed ⟨3, sds021_state_want_header, 4294967295, 0, ⟨0, 0⟩, 0⟩
        [0xAA, 0x00]).1.bad_chars = 0
      ∧ (SDS021Parser.feed ⟨3, sds021_state_want_header, 4294967295, 0, ⟨0, 0⟩, 0⟩
        [0xAA, 0x00]).1.bad_chars ≠ 4294967295 + 1 := by
  decide

/-- C9 (bad command byte, amended): AA followed by a byte b other than 0xC0, fed
to a parser in the want-header state, takes bad_chars to (bad_chars + 1) mod 2^32
(one more whenever that does not exceed the 32-bit counter), reports nothing and
leaves the parser in the want-header state. This holds for b = 0xAA too: after
AA AA the parser is in the want-header state, not want-command, and a following
0xC0 is counted in bad_chars as well. -/
theorem bad_command_byte (p : SDS021Parser) (b : Nat) (hb : b ≠ 0xC0)
    (hs : p.state = sds021_state_want_header) :
    (p.feed [0xAA, b]).1.bad_chars = (p.bad_chars + 1) % 2 ^ 32
      ∧ (p.bad_chars + 1 < 2 ^ 32 → (p.feed [0xAA, b]).1.bad_chars = p.bad_chars + 1)
      ∧ (p.feed [0xAA, b]).2 = [none, none]
      ∧ (p.feed [0xAA, b]).1.state = sds021_state_want_header
      ∧ (p.feed [0xAA, 0xAA]).1.state = sds021_state_want_header
      ∧ (p.feed [0xAA, 0xAA]).1.state ≠ sds021_state_want_command
      ∧ (p.feed [0xAA, 0xAA, 0xC0]).1.state = sds021_state_want_header
      ∧ (p.feed [0xAA, 0xAA, 0xC0]).1.bad_chars
          = ((p.feed [0xAA, 0xAA]).1.bad_chars + 1) % 2 ^ 32 := by
  have hb0 : ¬ b = 0xC0 := hb
  obtain ⟨fd, st, bc, cf, rd, ck⟩ := p
  simp only at hs
  subst hs
  refine ⟨?_, ?_, ?_, ?_, ?_, ?_, ?_, ?_⟩
  · simp [SDS021Parser.feed, SDS021Parser.update, hb0]
  · intro hlt
    simp only at hlt
    simp [SDS021Parser.feed, SDS021Parser.update, hb0]
    omega
  · simp [SDS021Parser.feed, SDS021Parser.update, hb0]
  · simp [SDS021Parser.feed, SDS021Parser.update, hb0]
  · simp [SDS021Parser.feed, SDS021Parser.update]
  · simp [SDS021Parser.feed, SDS021Parser.update]
  · simp [SDS021Parser.feed, SDS021Parser.update]
  · simp [SDS021Parser.feed, SDS021Parser.update]

/-- AA followed by AA, met with bad_chars = 7: one bad byte, back in the
want-header state. -/
theorem bad_command_byte_witness :
    (SDS021Parser.feed ⟨3, sds021_state_want_header, 7, 9, ⟨1, 2⟩, 5⟩
        [0xAA, 0xAA]).1.bad_chars = (7 + 1) % 2 ^ 32
      ∧ (SDS021Parser.feed ⟨3, sds021_state_want_header, 7, 9, ⟨1, 2⟩, 5⟩
        [0xAA, 0xAA]).1.state = sds021_state_want_header :=
  ⟨(bad_command_byte ⟨3, sds021_state_want_header, 7, 9, ⟨1, 2⟩, 5⟩ 0xAA (by decide) rfl).1,
    (bad_command_byte ⟨3, sds021_state_want_header, 7, 9, ⟨1, 2⟩, 5⟩ 0xAA
      (by decide) rfl).2.2.2.1⟩

/-- C10, as stated, fails when the counter is at its largest value: the frame
AA C0 7D 00 32 00 11 22 E2 with tail 00, met with bad_chars = 4294967295,
leaves the counter at 0, not one higher. -/
theorem tail_mismatch_counter_wraps :
    (SDS021Parser.feed ⟨3, sds021_state_want_header, 4294967295, 0, ⟨0, 0⟩, 0⟩
        [0xAA, 0xC0, 0x7D, 0x00, 0x32, 0x00, 0x11, 0x22, 0xE2, 0x00]).1.bad_chars = 0
      ∧ (SDS021Parser.feed ⟨3, sds021_state_want_header, 4294967295, 0, ⟨0, 0⟩, 0⟩
        [0xAA, 0xC0, 0x7D, 0x00, 0x32, 0x00, 0x11, 0x22, 0xE2, 0x00]).1.bad_chars
          ≠ 4294967295 + 1 := by
  decide

/-- C10 (tail mismatch does not revoke the reading, amended): the ten bytes
AA C0 d1..d6 cs t, with cs the sum of d1..d6 modulo 256 and t other than 0xAB,
fed to a parser in the want-header state report the reading pm25 = d1 + 256*d2,
pm10 = d3 + 256*d4 on the ninth byte and nothing on the tenth; bad_chars is
unchanged after nine bytes and is (bad_chars + 1) mod 2^32 after the tenth (one
more whenever that does not exceed the 32-bit counter); checksum_failures is
unchanged and the parser is left in the want-header state, so that a valid frame
fed next reports its reading on its ninth byte. -/
theorem tail_mismatch_keeps_reading (p : SDS021Parser) (d1 d2 d3 d4 d5 d6 t : Nat)
    (h1 : d1 < 256) (h2 : d2 < 256) (h3 : d3 < 256) (h4 : d4 < 256)
    (ht : t ≠ 0xAB)
    (hs : p.state = sds021_state_want_header) :
    (p.feed [0xAA, 0xC0, d1, d2, d3, d4, d5, d6, (d1 + d2 + d3 + d4 + d5 + d6) % 256, t]).2
        = [none, none, none, none, none, none, none, none,
            some { pm25 := d1 + 256 * d2, pm10 := d3 + 256 * d4 }, none]
      ∧ (p.feed [0xAA, 0xC0, d1, d2, d3, d4, d5, d6,
          (d1 + d2 + d3 + d4 + d5 + d6) % 256]).1.bad_chars = p.bad_chars
      ∧ (p.feed [0xAA, 0xC0, d1, d2, d3, d4, d5, d6,
          (d1 + d2 + d3 + d4 + d5 + d6) % 256, t]).1.bad_chars = (p.bad_chars + 1) % 2 ^ 32
      ∧ (p.bad_chars + 1 < 2 ^ 32 →
          (p.feed [0xAA, 0xC0, d1, d2, d3, d4, d5, d6,
            (d1 + d2 + d3 + d4 + d5 + d6) % 256, t]).1.bad_chars = p.bad_chars + 1)
      ∧ (p.feed [0xAA, 0xC0, d1, d2, d3, d4, d5, d6,
          (d1 + d2 + d3 + d4 + d5 + d6) % 256, t]).1.checksum_failures = p.checksum_failures
      ∧ (p.feed [0xAA, 0xC0, d1, d2, d3, d4, d5, d6,
          (d1 + d2 + d3 + d4 + d5 + d6) % 256, t]).1.state = sds021_state_want_header
      ∧ ∀ e1 e2 e3 e4 e5 e6 : Nat, e1 < 256 → e2 < 256 → e3 < 256 → e4 < 256 →
          (SDS021Parser.feed
              (p.feed [0xAA, 0xC0, d1, d2, d3, d4, d5, d6,
                (d1 + d2 + d3 + d4 + d5 + d6) % 256, t]).1
              [0xAA, 0xC0, e1, e2, e3, e4, e5, e6, (e1 + e2 + e3 + e4 + e5 + e6) % 256, 0xAB]).2
            = [none, none, none, none, none, none, none, none,
                some { pm25 := e1 + 256 * e2, pm10 := e3 + 256 * e4 }, none] := by
  have e25 : (d1 ||| d2 <<< 8) % 65536 = d1 + 256 * d2 := or_shift_eq_le16 d1 d2 h1 h2
  have e10 : (d3 ||| d4 <<< 8) % 65536 = d3 + 256 * d4 := or_shift_eq_le16 d3 d4 h3 h4
  have ht0 : ¬ t = 0xAB := ht
  have hst : (p.feed [0xAA, 0xC0, d1, d2, d3, d4, d5, d6,
      (d1 + d2 + d3 + d4 + d5 + d6) % 256, t]).1.state = sds021_state_want_header := by
    obtain ⟨fd, st, bc, cf, rd, ck⟩ := p
    simp only at hs
    subst hs
    simp [SDS021Parser.feed, SDS021Parser.update, ht0]
  refine ⟨?_, ?_, ?_, ?_, ?_, hst, ?_⟩
  · obtain ⟨fd, st, bc, cf, rd, ck⟩ := p
    simp only at hs
    subst hs
    simp [SDS021Parser.feed, SDS021Parser.update, SDS021Parser.yield_message, ht0, e25, e10]
  · obtain ⟨fd, st, bc, cf, rd, ck⟩ := p
    simp only at hs
    subst hs
    simp [SDS021Parser.feed, SDS021Parser.update]
  · obtain ⟨fd, st, bc, cf, rd, ck⟩ := p
    simp only at hs
    subst hs
    simp [SDS021Parser.feed, SDS021Parser.update, ht0]
  · intro hlt
    obtain ⟨fd, st, bc, cf, rd, ck⟩ := p
    simp only at hs hlt
    subst hs
    simp [SDS021Parser.feed, SDS021Parser.update, ht0]
    omega
  · obtain ⟨fd, st, bc, cf, rd, ck⟩ := p
    simp only at hs
    subst hs
    simp [SDS021Parser.feed, SDS021Parser.update, ht0]
  · intro e1 e2 e3 e4 e5 e6 g1 g2 g3 g4
    have hv := feed_valid_frame
      (p.feed [0xAA, 0xC0, d1, d2, d3, d4, d5, d6, (d1 + d2 + d3 + d4 + d5 + d6) % 256, t]).1
      e1 e2 e3 e4 e5 e6 g1 g2 g3 g4 hst
    simp only [valid_frame] at hv
    rw [hv]
    rfl

/-- The frame AA C0 7D 00 32 00 11 22 E2 with tail 00 in place of AB, met with
bad_chars = 7: the reading is reported on the ninth byte, the tail is counted. -/
theorem tail_mismatch_keeps_reading_witness :
    (SDS021Parser.feed ⟨3, sds021_state_want_header, 7, 9, ⟨1, 2⟩, 5⟩
        [0xAA, 0xC0, 0x7D, 0x00, 0x32, 0x00, 0x11, 0x22, 0xE2, 0x00]).2
        = [none, none, none, none, none, none, none, none,
            some { pm25 := 125, pm10 := 50 }, none]
      ∧ (SDS021Parser.feed ⟨3, sds021_state_want_header, 7, 9, ⟨1, 2⟩, 5⟩
        [0xAA, 0xC0, 0x7D, 0x00, 0x32, 0x00, 0x11, 0x22, 0xE2, 0x00]).1.bad_chars
          = (7 + 1) % 2 ^ 32 :=
  ⟨(tail_mismatch_keeps_reading ⟨3, sds021_state_want_header, 7, 9, ⟨1, 2⟩, 5⟩
      0x7D 0x00 0x32 0x00 0x11 0x22 0x00 (by decide) (by decide) (by decide) (by decide)
      (by decide) rfl).1,
    (tail_mismatch_keeps_reading ⟨3, sds021_state_want_header, 7, 9, ⟨1, 2⟩, 5⟩
      0x7D 0x00 0x32 0x00 0x11 0x22 0x00 (by decide) (by decide) (by decide) (by decide)
      (by decide) rfl).2.2.1⟩

/-! ## One call of update: counters and parsing state -/

/-- One call of update leaves `bad_chars` as it is or takes it to the next
32-bit value, and likewise `checksum_failures`. -/
theorem update_counters (p : SDS021Parser) (byte : Nat) :
    ((p.update byte).1.bad_chars = p.bad_chars
        ∨ (p.update byte).1.bad_chars = (p.bad_chars + 1) % 2 ^ 32)
      ∧ ((p.update byte).1.checksum_failures = p.checksum_failures
        ∨ (p.update byte).1.checksum_failures = (p.checksum_failures + 1) % 2 ^ 32) := by
  obtain ⟨fd, st, bc, cf, rd, ck⟩ := p
  cases st <;> simp [SDS021Parser.update] <;> split <;> simp

/-- Without wrap-around, a byte sequence of length n moves `bad_chars` up by at
most n. -/
theorem feed_bad_chars_bounds (p : SDS021Parser) (bytes : List Nat)
    (h : p.bad_chars + bytes.length < 2 ^ 32) :
    p.bad_chars ≤ (p.feed bytes).1.bad_chars
      ∧ (p.feed bytes).1.bad_chars ≤ p.bad_chars + bytes.length := by
  induction bytes generalizing p with
  | nil => simp [SDS021Parser.feed]
  | cons b bs ih =>
    simp only [List.length_cons] at h
    have hu := (update_counters p b).1
    have h1 : p.bad_chars ≤ (p.update b).1.bad_chars
        ∧ (p.update b).1.bad_chars ≤ p.bad_chars + 1 := by
      rcases hu with hu | hu
      · omega
      · rw [hu, Nat.mod_eq_of_lt (by omega)]
        omega
    have h2 := ih (p.update b).1 (by omega)
    simp only [SDS021Parser.feed, List.length_cons]
    omega

/-- Without wrap-around, a byte sequence of length n moves `checksum_failures`
up by at most n. -/
theorem feed_checksum_failures_bounds (p : SDS021Parser) (bytes : List Nat)
    (h : p.checksum_failures + bytes.length < 2 ^ 32) :
    p.checksum_failures ≤ (p.feed bytes).1.checksum_failures
      ∧ (p.feed bytes).1.checksum_failures ≤ p.checksum_failures + bytes.length := by
  induction bytes generalizing p with
  | nil => simp [SDS021Parser.feed]
  | cons b bs ih =>
    simp only [List.length_cons] at h
    have hu := (update_counters p b).2
    have h1 : p.checksum_failures ≤ (p.update b).1.checksum_failures
        ∧ (p.update b).1.checksum_failures ≤ p.checksum_failures + 1 := by
      rcases hu with hu | hu
      · omega
      · rw [hu, Nat.mod_eq_of_lt (by omega)]
        omega
    have h2 := ih (p.update b).1 (by omega)
    simp only [SDS021Parser.feed, List.length_cons]
    omega

/-- One call of update on two parsers that agree on state, pending reading and
running checksum: they agree on all three afterwards and report the same. -/
theorem update_parse_congr (p q : SDS021Parser) (byte : Nat)
    (hst : p.state = q.state) (hrd : p.reading = q.reading)
    (hck : p.checksum = q.checksum) :
    (p.update byte).1.state = (q.update byte).1.state
      ∧ (p.update byte).1.reading = (q.update byte).1.reading
      ∧ (p.update byte).1.checksum = (q.update byte).1.checksum
      ∧ (p.update byte).2 = (q.update byte).2 := by
  obtain ⟨fd, st, bc, cf, rd, ck⟩ := p
  obtain ⟨fd2, st2, bc2, cf2, rd2, ck2⟩ := q
  simp only at hst hrd hck
  subst hst hrd hck
  cases st <;> simp [SDS021Parser.update, SDS021Parser.yield_message] <;> split <;> simp

/-! ## Claims, continued -/

/-- C11, as stated, fails when a counter is at its largest value: one byte 00
met in the want-header state with bad_chars = 4294967295 leaves bad_chars at 0,
below its value before; the bad checksum byte 01 met in the want-checksum state
with checksum_failures = 4294967295 does the same to checksum_failures. -/
theorem counters_not_monotone_at_wrap :
    ¬ (4294967295 ≤
        (SDS021Parser.feed ⟨3, sds021_state_want_header, 4294967295, 0, ⟨0, 0⟩, 0⟩
          [0x00]).1.bad_chars)
      ∧ ¬ (4294967295 ≤
        (SDS021Parser.feed ⟨3, sds021_state_want_checksum, 0, 4294967295, ⟨0, 0⟩, 0⟩
          [0x01]).1.checksum_failures) := by
  decide

/-- C11 (counters are monotone, amended): for every parser state and every byte
sequence of n bytes fed to it, a counter whose value plus n stays below 2^32 is,
after the sequence, at least its value before and at most n more; this holds for
bad_chars and for checksum_failures, each on its own. -/
theorem counters_monotone_below_wrap (p : SDS021Parser) (bytes : List Nat) :
    (p.bad_chars + bytes.length < 2 ^ 32 →
        p.bad_chars ≤ (p.feed bytes).1.bad_chars
          ∧ (p.feed bytes).1.bad_chars ≤ p.bad_chars + bytes.length)
      ∧ (p.checksum_failures + bytes.length < 2 ^ 32 →
        p.checksum_failures ≤ (p.feed bytes).1.checksum_failures
          ∧ (p.feed bytes).1.checksum_failures ≤ p.checksum_failures + bytes.length) :=
  ⟨feed_bad_chars_bounds p bytes, feed_checksum_failures_bounds p bytes⟩

/-- Noise, a frame with a bad checksum and a frame with a bad tail, met with
bad_chars = 7 and checksum_failures = 9: neither counter goes down. -/
theorem counters_monotone_below_wrap_witness :
    7 ≤ (SDS021Parser.feed ⟨3, sds021_state_want_header, 7, 9, ⟨1, 2⟩, 5⟩
        [0x00, 0xAA, 0xC0, 1, 2, 3, 4, 5, 6, 0x00,
          0xAA, 0xC0, 1, 2, 3, 4, 5, 6, 21, 0x00]).1.bad_chars
      ∧ 9 ≤ (SDS021Parser.feed ⟨3, sds021_state_want_header, 7, 9, ⟨1, 2⟩, 5⟩
        [0x00, 0xAA, 0xC0, 1, 2, 3, 4, 5, 6, 0x00,
          0xAA, 0xC0, 1, 2, 3, 4, 5, 6, 21, 0x00]).1.checksum_failures :=
  ⟨((counters_monotone_below_wrap ⟨3, sds021_state_want_header, 7, 9, ⟨1, 2⟩, 5⟩
      [0x00, 0xAA, 0xC0, 1, 2, 3, 4, 5, 6, 0x00,
        0xAA, 0xC0, 1, 2, 3, 4, 5, 6, 21, 0x00]).1 (by decide)).1,
    ((counters_monotone_below_wrap ⟨3, sds021_state_want_header, 7, 9, ⟨1, 2⟩, 5⟩
      [0x00, 0xAA, 0xC0, 1, 2, 3, 4, 5, 6, 0x00,
        0xAA, 0xC0, 1, 2, 3, 4, 5, 6, 21, 0x00]).2 (by decide)).1⟩

/-- C12 (counters do not affect parsing): two parsers that agree on state,
pending reading and running checksum, whatever their bad_chars and
checksum_failures (and file descriptors), fed the same byte sequence end in the
same state with the same pending reading and running checksum, and report the
same readings at the same positions. -/
theorem counters_do_not_affect_parsing (p q : SDS021Parser) (bytes : List Nat)
    (hst : p.state = q.state) (hrd : p.reading = q.reading)
    (hck : p.checksum = q.checksum) :
    (p.feed bytes).1.state = (q.feed bytes).1.state
      ∧ (p.feed bytes).1.reading = (q.feed bytes).1.reading
      ∧ (p.feed bytes).1.checksum = (q.feed bytes).1.checksum
      ∧ (p.feed bytes).2 = (q.feed bytes).2 := by
  induction bytes generalizing p q with
  | nil => exact ⟨hst, hrd, hck, rfl⟩
  | cons b bs ih =>
    obtain ⟨u1, u2, u3, u4⟩ := update_parse_congr p q b hst hrd hck
    obtain ⟨f1, f2, f3, f4⟩ := ih (p.update b).1 (q.update b).1 u1 u2 u3
    simp only [SDS021Parser.feed]
    exact ⟨f1, f2, f3, by rw [u4, f4]⟩

/-- Two parsers in the want-data5 state with counters 0, 0 and 4294967295, 12:
the rest of a frame and a second frame give the same reports. -/
theorem counters_do_not_affect_parsing_witness :
    (SDS021Parser.feed ⟨3, sds021_state_want_data5, 0, 0, ⟨125, 50⟩, 175⟩
        [0x11, 0x22, 0xE2, 0xAB, 0xAA, 0xC0, 1, 2, 3, 4, 5, 6, 21, 0xAB]).2
      = (SDS021Parser.feed ⟨4, sds021_state_want_data5, 4294967295, 12, ⟨125, 50⟩, 175⟩
        [0x11, 0x22, 0xE2, 0xAB, 0xAA, 0xC0, 1, 2, 3, 4, 5, 6, 21, 0xAB]).2 :=
  (counters_do_not_affect_parsing ⟨3, sds021_state_want_data5, 0, 0, ⟨125, 50⟩, 175⟩
    ⟨4, sds021_state_want_data5, 4294967295, 12, ⟨125, 50⟩, 175⟩
    [0x11, 0x22, 0xE2, 0xAB, 0xAA, 0xC0, 1, 2, 3, 4, 5, 6, 21, 0xAB] rfl rfl rfl).2.2.2

/-- C13, as stated, fails when a counter is at its largest value: the byte 00
met in the want-tail state (a rejected tail) with bad_chars = 4294967295 leaves
bad_chars at 0, and the byte 01 met in the want-checksum state with checksum 0
and checksum_failures = 4294967295 leaves checksum_failures at 0; neither is an
increase by 1. -/
theorem counting_rule_fails_at_wrap :
    (SDS021Parser.update ⟨3, sds021_state_want_tail, 4294967295, 0, ⟨0, 0⟩, 0⟩
        0x00).1.bad_chars = 0
      ∧ (SDS021Parser.update ⟨3, sds021_state_want_tail, 4294967295, 0, ⟨0, 0⟩, 0⟩
        0x00).1.bad_chars ≠ 4294967295 + 1
      ∧ (SDS021Parser.update ⟨3, sds021_state_want_checksum, 0, 4294967295, ⟨0, 0⟩, 0⟩
        0x01).1.checksum_failures = 0
      ∧ (SDS021Parser.update ⟨3, sds021_state_want_checksum, 0, 4294967295, ⟨0, 0⟩, 0⟩
        0x01).1.checksum_failures ≠ 4294967295 + 1 := by
  decide

/-- C13 (exact counting rule for one call, amended): bad_chars becomes
(bad_chars + 1) mod 2^32 if and only if the state is want-header and the byte is
not 0xAA, or want-command and the byte is not 0xC0, or want-tail and the byte is
not 0xAB, and is otherwise unchanged; checksum_failures becomes
(checksum_failures + 1) mod 2^32 if and only if the state is want-checksum and
the byte differs from the running checksum, and is otherwise unchanged. Below
the largest 32-bit value the step is an increase by exactly 1. -/
theorem counting_rule (p : SDS021Parser) (byte : Nat) :
    (p.update byte).1.bad_chars
        = (if (p.state = sds021_state_want_header ∧ byte ≠ 0xAA)
              ∨ (p.state = sds021_state_want_command ∧ byte ≠ 0xC0)
              ∨ (p.state = sds021_state_want_tail ∧ byte ≠ 0xAB)
            then (p.bad_chars + 1) % 2 ^ 32 else p.bad_chars)
      ∧ (p.update byte).1.checksum_failures
        = (if p.state = sds021_state_want_checksum ∧ byte ≠ p.checksum
            then (p.checksum_failures + 1) % 2 ^ 32 else p.checksum_failures)
      ∧ ((p.update byte).1.bad_chars = (p.bad_chars + 1) % 2 ^ 32
          ↔ ((p.state = sds021_state_want_header ∧ byte ≠ 0xAA)
              ∨ (p.state = sds021_state_want_command ∧ byte ≠ 0xC0)
              ∨ (p.state = sds021_state_want_tail ∧ byte ≠ 0xAB)))
      ∧ ((p.update byte).1.checksum_failures = (p.checksum_failures + 1) % 2 ^ 32
          ↔ (p.state = sds021_state_want_checksum ∧ byte ≠ p.checksum))
      ∧ (p.bad_chars + 1 < 2 ^ 32 →
          ((p.update byte).1.bad_chars = p.bad_chars + 1
            ↔ ((p.state = sds021_state_want_header ∧ byte ≠ 0xAA)
                ∨ (p.state = sds021_state_want_command ∧ byte ≠ 0xC0)
                ∨ (p.state = sds021_state_want_tail ∧ byte ≠ 0xAB))))
      ∧ (p.checksum_failures + 1 < 2 ^ 32 →
          ((p.update byte).1.checksum_failures = p.checksum_failures + 1
            ↔ (p.state = sds021_state_want_checksum ∧ byte ≠ p.checksum))) := by
  have hbad : (p.update byte).1.bad_chars
      = (if (p.state = sds021_state_want_header ∧ byte ≠ 0xAA)
            ∨ (p.state = sds021_state_want_command ∧ byte ≠ 0xC0)
            ∨ (p.state = sds021_state_want_tail ∧ byte ≠ 0xAB)
          then (p.bad_chars + 1) % 2 ^ 32 else p.bad_chars) := by
    obtain ⟨fd, st, bc, cf, rd, ck⟩ := p
    cases st <;> simp [SDS021Parser.update] <;> split <;> simp_all
  have hcf : (p.update byte).1.checksum_failures
      = (if p.state = sds021_state_want_checksum ∧ byte ≠ p.checksum
          then (p.checksum_failures + 1) % 2 ^ 32 else p.checksum_failures) := by
    obtain ⟨fd, st, bc, cf, rd, ck⟩ := p
    cases st <;> simp [SDS021Parser.update] <;> split <;> simp_all
  have nb : p.bad_chars ≠ (p.bad_chars + 1) % 2 ^ 32 := by omega
  have nc : p.checksum_failures ≠ (p.checksum_failures + 1) % 2 ^ 32 := by omega
  refine ⟨hbad, hcf, ?_, ?_, ?_, ?_⟩
  · rw [hbad]
    split
    · simp_all
    · simp_all
  · rw [hcf]
    split
    · simp_all
    · simp_all
  · intro hlt
    rw [hbad]
    split
    · rw [Nat.mod_eq_of_lt hlt]
      simp_all
    · simp_all
  · intro hlt
    rw [hcf]
    split
    · rw [Nat.mod_eq_of_lt hlt]
      simp_all
    · simp_all

/-- The byte C1 met in the want-command state with bad_chars = 7: below the
largest value, so the step is an increase by exactly 1. -/
theorem counting_rule_witness :
    (SDS021Parser.update ⟨3, sds021_state_want_command, 7, 9, ⟨1, 2⟩, 5⟩ 0xC1).1.bad_chars
        = 7 + 1
      ↔ ((sds021_state_want_command = sds021_state_want_header ∧ 0xC1 ≠ 0xAA)
          ∨ (sds021_state_want_command = sds021_state_want_command ∧ 0xC1 ≠ 0xC0)
          ∨ (sds021_state_want_command = sds021_state_want_tail ∧ 0xC1 ≠ 0xAB)) :=
  (counting_rule ⟨3, sds021_state_want_command, 7, 9, ⟨1, 2⟩, 5⟩ 0xC1).2.2.2.2.1 (by decide)

/-! ## Recovery on input without a header byte -/

/-- A byte other than 0xAA brings the parser one step nearer to the want-header
state, in the measure `resync_distance`. -/
theorem resync_distance_update (p : SDS021Parser) (b : Nat) (hb : b ≠ 0xAA) :
    resync_distance (p.update b).1.state ≤ resync_distance p.state - 1 := by
  have hb0 : ¬ b = 0xAA := hb
  obtain ⟨fd, st, bc, cf, rd, ck⟩ := p
  cases st
  case sds021_state_want_header =>
    simp [SDS021Parser.update, resync_distance, hb0]
  case sds021_state_want_command =>
    by_cases h : b = 0xC0 <;> simp [SDS021Parser.update, resync_distance, h]
  case sds021_state_want_checksum =>
    by_cases h : b = ck <;> simp [SDS021Parser.update, resync_distance, h]
  case sds021_state_want_tail =>
    by_cases h : b = 0xAB <;> simp [SDS021Parser.update, resync_distance, h]
  all_goals simp [SDS021Parser.update, resync_distance]

/-- Bytes other than 0xAA bring the parser nearer to the want-header state by
one step each. -/
theorem resync_distance_feed (p : SDS021Parser) (bytes : List Nat)
    (hb : ∀ b ∈ bytes, b ≠ 0xAA) :
    resync_distance (p.feed bytes).1.state ≤ resync_distance p.state - bytes.length := by
  induction bytes generalizing p with
  | nil => simp [SDS021Parser.feed]
  | cons b bs ih =>
    have h1 := resync_distance_update p b (hb b (by simp))
    have h2 := ih (p.update b).1 (fun x hx => hb x (by simp [hx]))
    simp only [SDS021Parser.feed, List.length_cons]
    omega

/-- The measure `resync_distance` is at most 9, and 0 only in the want-header
state. -/
theorem resync_distance_bounds (st : parser_state_t) :
    resync_distance st ≤ 9
      ∧ (resync_distance st = 0 → st = sds021_state_want_header)
      ∧ (st ≠ sds021_state_want_command → resync_distance st ≤ 8) := by
  cases st <;> simp [resync_distance]

/-! ## Claims, continued -/

/-- C14, as stated, fails: from the want-command state the eight bytes
C0 00 00 00 00 00 00 00, none of them 0xAA, are taken as the command, six data
bytes and their matching checksum, and leave the parser in the want-tail state,
not want-header. -/
theorem eight_bytes_do_not_recover :
    (∀ b ∈ [0xC0, 0x00, 0x00, 0x00, 0x00, 0x00, 0x00, 0x00], b ≠ 0xAA)
      ∧ (SDS021Parser.feed ⟨3, sds021_state_want_command, 0, 0, ⟨0, 0⟩, 0⟩
          [0xC0, 0x00, 0x00, 0x00, 0x00, 0x00, 0x00, 0x00]).1.state = sds021_state_want_tail
      ∧ (SDS021Parser.feed ⟨3, sds021_state_want_command, 0, 0, ⟨0, 0⟩, 0⟩
          [0xC0, 0x00, 0x00, 0x00, 0x00, 0x00, 0x00, 0x00]).1.state
            ≠ sds021_state_want_header := by
  decide

/-- C14 (bounded recovery on input without a header byte, amended): from every
parser state, after any sequence of at least 9 bytes none of which is 0xAA, the
parser is in the want-header state; from every state other than want-command 8
such bytes are enough. Both bounds are tight: from want-command the eight bytes
C0 00 00 00 00 00 00 00 leave the parser in want-tail, and from want-data1 seven
bytes 00 do. -/
theorem bounded_recovery (p : SDS021Parser) (bytes : List Nat)
    (hb : ∀ b ∈ bytes, b ≠ 0xAA) :
    (9 ≤ bytes.length → (p.feed bytes).1.state = sds021_state_want_header)
      ∧ (8 ≤ bytes.length → p.state ≠ sds021_state_want_command →
          (p.feed bytes).1.state = sds021_state_want_header)
      ∧ (SDS021Parser.feed { p with state := sds021_state_want_command }
          [0xC0, 0x00, 0x00, 0x00, 0x00, 0x00, 0x00, 0x00]).1.state = sds021_state_want_tail
      ∧ (SDS021Parser.feed { p with state := sds021_state_want_data1 }
          [0x00, 0x00, 0x00, 0x00, 0x00, 0x00, 0x00]).1.state = sds021_state_want_tail := by
  have hd := resync_distance_feed p bytes hb
  have hle := resync_distance_bounds p.state
  have hz := (resync_distance_bounds (p.feed bytes).1.state).2.1
  refine ⟨?_, ?_, ?_, ?_⟩
  · intro hlen
    exact hz (by omega)
  · intro hlen hne
    have h8 := hle.2.2 hne
    exact hz (by omega)
  · obtain ⟨fd, st, bc, cf, rd, ck⟩ := p
    simp [SDS021Parser.feed, SDS021Parser.update]
  · obtain ⟨fd, st, bc, cf, rd, ck⟩ := p
    simp [SDS021Parser.feed, SDS021Parser.update]

/-- Nine bytes C0 00 00 00 00 00 00 00 00 met in the want-command state: the
ninth is the rejected tail, and the parser awaits a header. -/
theorem bounded_recovery_witness :
    (SDS021Parser.feed ⟨3, sds021_state_want_command, 7, 9, ⟨1, 2⟩, 5⟩
        [0xC0, 0x00, 0x00, 0x00, 0x00, 0x00, 0x00, 0x00, 0x00]).1.state
      = sds021_state_want_header :=
  (bounded_recovery ⟨3, sds021_state_want_command, 7, 9, ⟨1, 2⟩, 5⟩
    [0xC0, 0x00, 0x00, 0x00, 0x00, 0x00, 0x00, 0x00, 0x00] (by decide)).1 (by decide)

/-! ## Spacing of the reports -/

/-- One call of update lowers the measure `emission_wait` by at most one. -/
theorem emission_wait_update (p : SDS021Parser) (b : Nat) :
    emission_wait p.state ≤ emission_wait (p.update b).1.state + 1 := by
  obtain ⟨fd, st, bc, cf, rd, ck⟩ := p
  cases st
  case sds021_state_want_header =>
    by_cases h : b = 0xAA <;> simp [SDS021Parser.update, emission_wait, h]
  case sds021_state_want_command =>
    by_cases h : b = 0xC0 <;> simp [SDS021Parser.update, emission_wait, h]
  case sds021_state_want_checksum =>
    by_cases h : b = ck <;> simp [SDS021Parser.update, emission_wait, h]
  case sds021_state_want_tail =>
    by_cases h : b = 0xAB <;> simp [SDS021Parser.update, emission_wait, h]
  all_goals simp [SDS021Parser.update, emission_wait]

/-- A call of update that reports a reading was made at measure 1 and leaves the
parser at measure 10, with both counters untouched. -/
theorem emission_wait_report (p : SDS021Parser) (b : Nat) (r : SDS021Reading)
    (h : (p.update b).2 = some r) :
    emission_wait p.state = 1 ∧ emission_wait (p.update b).1.state = 10
      ∧ (p.update b).1.bad_chars = p.bad_chars
      ∧ (p.update b).1.checksum_failures = p.checksum_failures := by
  obtain ⟨fd, st, bc, cf, rd, ck⟩ := p
  cases st
  case sds021_state_want_header =>
    by_cases hb : b = 0xAA <;> simp [SDS021Parser.update, hb] at h
  case sds021_state_want_command =>
    by_cases hb : b = 0xC0 <;> simp [SDS021Parser.update, hb] at h
  case sds021_state_want_checksum =>
    by_cases hb : b = ck
    · simp [SDS021Parser.update, emission_wait, hb]
    · simp [SDS021Parser.update, hb] at h
  case sds021_state_want_tail =>
    by_cases hb : b = 0xAB <;> simp [SDS021Parser.update, hb] at h
  all_goals simp [SDS021Parser.update] at h

/-- A reading reported on the byte at index i (counted from 0) means the parser
started at measure at most i + 1. -/
theorem feed_report_index (p : SDS021Parser) (bytes : List Nat) (i : Nat)
    (r : SDS021Reading) (h : (p.feed bytes).2[i]? = some (some r)) :
    emission_wait p.state ≤ i + 1 := by
  induction bytes generalizing p i with
  | nil => simp [SDS021Parser.feed] at h
  | cons b bs ih =>
    cases i with
    | zero =>
      simp only [SDS021Parser.feed, List.getElem?_cons_zero, Option.some.injEq] at h
      have := (emission_wait_report p b r h).1
      omega
    | succ k =>
      simp only [SDS021Parser.feed, List.getElem?_cons_succ] at h
      have h1 := ih (p.update b).1 k h
      have h2 := emission_wait_update p b
      omega

/-- Two readings reported on the bytes at indices i < j are at least ten bytes
apart. -/
theorem feed_report_gap (p : SDS021Parser) (bytes : List Nat) (i j : Nat)
    (r1 r2 : SDS021Reading) (hij : i < j)
    (hi : (p.feed bytes).2[i]? = some (some r1))
    (hj : (p.feed bytes).2[j]? = some (some r2)) :
    i + 10 ≤ j := by
  induction bytes generalizing p i j with
  | nil => simp [SDS021Parser.feed] at hi
  | cons b bs ih =>
    cases j with
    | zero => omega
    | succ m =>
      simp only [SDS021Parser.feed, List.getElem?_cons_succ] at hj
      cases i with
      | zero =>
        simp only [SDS021Parser.feed, List.getElem?_cons_zero, Option.some.injEq] at hi
        have h1 := (emission_wait_report p b r1 hi).2.1
        have h2 := feed_report_index (p.update b).1 bs m r2 hj
        omega
      | succ k =>
        simp only [SDS021Parser.feed, List.getElem?_cons_succ] at hi
        have := ih (p.update b).1 k m (by omega) hi hj
        omega

/-- Ten bytes per reading: the readings reported over a byte sequence, times
ten, plus the measure at the start, stay within the length plus ten. -/
theorem feed_report_count (p : SDS021Parser) (bytes : List Nat) :
    10 * (p.feed bytes).2.countP Option.isSome + emission_wait p.state
      ≤ bytes.length + 10 := by
  induction bytes generalizing p with
  | nil =>
    simp only [SDS021Parser.feed, List.countP_nil, List.length_nil]
    cases p.state <;> simp [emission_wait]
  | cons b bs ih =>
    have h1 := ih (p.update b).1
    have h2 := emission_wait_update p b
    simp only [SDS021Parser.feed, List.length_cons, List.countP_cons]
    cases hr : (p.update b).2 with
    | none =>
      simp only [Option.isSome_none, Bool.false_eq_true, if_false]
      omega
    | some r =>
      have h3 := emission_wait_report p b r hr
      simp only [Option.isSome_some, if_true]
      omega

/-! ## Claims, continued -/

/-- C15 (emission spacing): for every byte sequence fed to a freshly constructed
parser, a reading is reported no earlier than the ninth byte (index 8 counted
from 0), two reported readings are at least ten bytes apart, and n bytes give at
most floor((n+1)/10) readings; and a call of update that reports a reading, in
any parser state, changes neither counter. -/
theorem emission_spacing (_serial_fd : Int) (storage : SDS021Parser) (bytes : List Nat) :
    (∀ (i : Nat) (r : SDS021Reading),
        ((SDS021Parser.ctor _serial_fd storage).feed bytes).2[i]? = some (some r) → 8 ≤ i)
      ∧ (∀ (i j : Nat) (r1 r2 : SDS021Reading), i < j →
          ((SDS021Parser.ctor _serial_fd storage).feed bytes).2[i]? = some (some r1) →
          ((SDS021Parser.ctor _serial_fd storage).feed bytes).2[j]? = some (some r2) →
            i + 10 ≤ j)
      ∧ ((SDS021Parser.ctor _serial_fd storage).feed bytes).2.countP Option.isSome
          ≤ (bytes.length + 1) / 10
      ∧ (∀ (q : SDS021Parser) (b : Nat), (q.update b).2.isSome = true →
          (q.update b).1.bad_chars = q.bad_chars
            ∧ (q.update b).1.checksum_failures = q.checksum_failures) := by
  refine ⟨?_, ?_, ?_, ?_⟩
  · intro i r h
    have h1 := feed_report_index (SDS021Parser.ctor _serial_fd storage) bytes i r h
    have h2 : emission_wait (SDS021Parser.ctor _serial_fd storage).state = 9 := rfl
    omega
  · intro i j r1 r2 hij hi hj
    exact feed_report_gap _ bytes i j r1 r2 hij hi hj
  · have h1 := feed_report_count (SDS021Parser.ctor _serial_fd storage) bytes
    have h2 : emission_wait (SDS021Parser.ctor _serial_fd storage).state = 9 := rfl
    omega
  · intro q b h
    obtain ⟨r, hr⟩ := Option.isSome_iff_exists.mp h
    exact (emission_wait_report q b r hr).2.2

/-- Two frames back to back, 20 bytes, on a fresh parser: readings on the bytes
at indices 8 and 18, ten apart, and 2 = floor(21/10) of them. -/
theorem emission_spacing_witness :
    ((SDS021Parser.ctor 3 ⟨0, sds021_state_want_tail, 7, 9, ⟨1, 2⟩, 5⟩).feed
        [0xAA, 0xC0, 0x7D, 0x00, 0x32, 0x00, 0x11, 0x22, 0xE2, 0xAB,
          0xAA, 0xC0, 1, 2, 3, 4, 5, 6, 21, 0xAB]).2[8]? = some (some ⟨125, 50⟩)
      ∧ ((SDS021Parser.ctor 3 ⟨0, sds021_state_want_tail, 7, 9, ⟨1, 2⟩, 5⟩).feed
        [0xAA, 0xC0, 0x7D, 0x00, 0x32, 0x00, 0x11, 0x22, 0xE2, 0xAB,
          0xAA, 0xC0, 1, 2, 3, 4, 5, 6, 21, 0xAB]).2[18]? = some (some ⟨513, 1027⟩)
      ∧ 8 + 10 ≤ 18 :=
  ⟨by decide, by decide,
    (emission_spacing 3 ⟨0, sds021_state_want_tail, 7, 9, ⟨1, 2⟩, 5⟩
      [0xAA, 0xC0, 0x7D, 0x00, 0x32, 0x00, 0x11, 0x22, 0xE2, 0xAB,
        0xAA, 0xC0, 1, 2, 3, 4, 5, 6, 21, 0xAB]).2.1 8 18 ⟨125, 50⟩ ⟨513, 1027⟩
      (by decide) (by decide) (by decide)⟩

/-- C16 (frame of the pending fields): a call of update in the want-header,
want-command, want-checksum or want-tail state changes neither the pending
reading nor the running checksum; in want-data1 or want-data2 it leaves pm10
unchanged, in want-data3 or want-data4 it leaves pm25 unchanged, in want-data5
or want-data6 it leaves both unchanged; and every call changes at most one of
bad_chars and checksum_failures. -/
theorem pending_fields_frame (p : SDS021Parser) (byte : Nat) :
    ((p.state = sds021_state_want_header ∨ p.state = sds021_state_want_command
        ∨ p.state = sds021_state_want_checksum ∨ p.state = sds021_state_want_tail) →
        (p.update byte).1.reading = p.reading ∧ (p.update byte).1.checksum = p.checksum)
      ∧ ((p.state = sds021_state_want_data1 ∨ p.state = sds021_state_want_data2) →
        (p.update byte).1.reading.pm10 = p.reading.pm10)
      ∧ ((p.state = sds021_state_want_data3 ∨ p.state = sds021_state_want_data4) →
        (p.update byte).1.reading.pm25 = p.reading.pm25)
      ∧ ((p.state = sds021_state_want_data5 ∨ p.state = sds021_state_want_data6) →
        (p.update byte).1.reading = p.reading)
      ∧ ((p.update byte).1.bad_chars = p.bad_chars
        ∨ (p.update byte).1.checksum_failures = p.checksum_failures) := by
  obtain ⟨fd, st, bc, cf, rd, ck⟩ := p
  cases st
  case sds021_state_want_header =>
    by_cases h : byte = 0xAA <;> simp [SDS021Parser.update, h]
  case sds021_state_want_command =>
    by_cases h : byte = 0xC0 <;> simp [SDS021Parser.update, h]
  case sds021_state_want_checksum =>
    by_cases h : byte = ck <;> simp [SDS021Parser.update, h]
  case sds021_state_want_tail =>
    by_cases h : byte = 0xAB <;> simp [SDS021Parser.update, h]
  all_goals simp [SDS021Parser.update]

/-- The byte 32 met in the want-data3 state with pending pm25 = 125: pm10 is
set, pm25 stays. -/
theorem pending_fields_frame_witness :
    (SDS021Parser.update ⟨3, sds021_state_want_data3, 7, 9, ⟨125, 4660⟩, 125⟩
        0x32).1.reading.pm25 = 125 :=
  (pending_fields_frame ⟨3, sds021_state_want_data3, 7, 9, ⟨125, 4660⟩, 125⟩ 0x32).2.2.1
    (Or.inl rfl)

/-! ## Resynchronization -/

/-- A valid frame fed after bytes that leave the parser in the want-header
state: its ten reports follow those of the bytes before it, and the parser is
in the want-header state again. -/
theorem feed_frame_after (p : SDS021Parser) (pre : List Nat) (d1 d2 d3 d4 d5 d6 : Nat)
    (h1 : d1 < 256) (h2 : d2 < 256) (h3 : d3 < 256) (h4 : d4 < 256)
    (hst : (p.feed pre).1.state = sds021_state_want_header) :
    (p.feed (pre ++ valid_frame d1 d2 d3 d4 d5 d6)).2
        = (p.feed pre).2 ++ frame_reports (frame_reading d1 d2 d3 d4)
      ∧ (p.feed (pre ++ valid_frame d1 d2 d3 d4 d5 d6)).1.state
        = sds021_state_want_header := by
  rw [feed_append, feed_valid_frame (p.feed pre).1 d1 d2 d3 d4 d5 d6 h1 h2 h3 h4 hst]
  exact ⟨rfl, hst⟩

/-- Whatever was fed before, at least nine bytes other than 0xAA leave the
parser in the want-header state. -/
theorem feed_gap_want_header (p : SDS021Parser) (s g : List Nat)
    (hg : ∀ b ∈ g, b ≠ 0xAA) (hlen : 9 ≤ g.length) :
    (p.feed (s ++ g)).1.state = sds021_state_want_header := by
  have hd := resync_distance_feed (p.feed s).1 g hg
  have hle := (resync_distance_bounds (p.feed s).1.state).1
  have hz := (resync_distance_bounds (SDS021Parser.feed (p.feed s).1 g).1.state).2.1
  rw [feed_append]
  exact hz (by omega)

/-! ## Claims, continued -/

/-- C4 (resynchronization, amended): for every byte sequence s fed to a freshly
constructed parser, (1) whenever the parser is in the want-header state after s,
a valid ten-byte frame fed right after s reports its reading
pm25 = d1 + 256*d2, pm10 = d3 + 256*d4 on its ninth byte and on no other, and
leaves the parser in the want-header state; (2) whatever state s leaves the
parser in, after s and any further g of at least nine bytes none of which is
0xAA the parser is in the want-header state, and a valid frame fed after s and g
reports its reading on its ninth byte, so synchronization is never lost for
good; (3) after every byte of s the state is one of the ten enumerators. -/
theorem resync_after_header_free_gap (_serial_fd : Int) (storage : SDS021Parser)
    (s : List Nat) :
    (((SDS021Parser.ctor _serial_fd storage).feed s).1.state = sds021_state_want_header →
        ∀ d1 d2 d3 d4 d5 d6 : Nat, d1 < 256 → d2 < 256 → d3 < 256 → d4 < 256 →
          ((SDS021Parser.ctor _serial_fd storage).feed
              (s ++ [0xAA, 0xC0, d1, d2, d3, d4, d5, d6,
                (d1 + d2 + d3 + d4 + d5 + d6) % 256, 0xAB])).2
            = ((SDS021Parser.ctor _serial_fd storage).feed s).2
                ++ [none, none, none, none, none, none, none, none,
                  some { pm25 := d1 + 256 * d2, pm10 := d3 + 256 * d4 }, none]
          ∧ ((SDS021Parser.ctor _serial_fd storage).feed
              (s ++ [0xAA, 0xC0, d1, d2, d3, d4, d5, d6,
                (d1 + d2 + d3 + d4 + d5 + d6) % 256, 0xAB])).1.state
            = sds021_state_want_header)
      ∧ (∀ g : List Nat, (∀ b ∈ g, b ≠ 0xAA) → 9 ≤ g.length →
          ((SDS021Parser.ctor _serial_fd storage).feed (s ++ g)).1.state
              = sds021_state_want_header
            ∧ ∀ d1 d2 d3 d4 d5 d6 : Nat, d1 < 256 → d2 < 256 → d3 < 256 → d4 < 256 →
              ((SDS021Parser.ctor _serial_fd storage).feed
                  (s ++ g ++ [0xAA, 0xC0, d1, d2, d3, d4, d5, d6,
                    (d1 + d2 + d3 + d4 + d5 + d6) % 256, 0xAB])).2
                = ((SDS021Parser.ctor _serial_fd storage).feed (s ++ g)).2
                    ++ [none, none, none, none, none, none, none, none,
                      some { pm25 := d1 + 256 * d2, pm10 := d3 + 256 * d4 }, none]
              ∧ ((SDS021Parser.ctor _serial_fd storage).feed
                  (s ++ g ++ [0xAA, 0xC0, d1, d2, d3, d4, d5, d6,
                    (d1 + d2 + d3 + d4 + d5 + d6) % 256, 0xAB])).1.state
                = sds021_state_want_header)
      ∧ (∀ k : Nat, ((SDS021Parser.ctor _serial_fd storage).feed (s.take k)).1.state ∈
          [sds021_state_want_header, sds021_state_want_command, sds021_state_want_data1,
            sds021_state_want_data2, sds021_state_want_data3, sds021_state_want_data4,
            sds021_state_want_data5, sds021_state_want_data6, sds021_state_want_checksum,
            sds021_state_want_tail]) := by
  refine ⟨?_, ?_, ?_⟩
  · intro hst d1 d2 d3 d4 d5 d6 h1 h2 h3 h4
    exact feed_frame_after (SDS021Parser.ctor _serial_fd storage) s
      d1 d2 d3 d4 d5 d6 h1 h2 h3 h4 hst
  · intro g hg hlen
    have hst := feed_gap_want_header (SDS021Parser.ctor _serial_fd storage) s g hg hlen
    refine ⟨hst, ?_⟩
    intro d1 d2 d3 d4 d5 d6 h1 h2 h3 h4
    exact feed_frame_after (SDS021Parser.ctor _serial_fd storage) (s ++ g)
      d1 d2 d3 d4 d5 d6 h1 h2 h3 h4 hst
  · intro k
    cases ((SDS021Parser.ctor _serial_fd storage).feed (s.take k)).1.state <;> simp

/-- The byte AA alone leaves a fresh parser awaiting the command byte, where a
frame fed at once is lost; after nine more bytes C0 00 00 00 00 00 00 00 00,
none of them AA, the frame AA C0 7D 00 32 00 11 22 E2 AB reports pm25 = 125,
pm10 = 50 on its ninth byte. -/
theorem resync_after_header_free_gap_witness :
    ((SDS021Parser.ctor 3 ⟨0, sds021_state_want_tail, 7, 9, ⟨1, 2⟩, 5⟩).feed
        ([0xAA] ++ [0xC0, 0x00, 0x00, 0x00, 0x00, 0x00, 0x00, 0x00, 0x00]
          ++ [0xAA, 0xC0, 0x7D, 0x00, 0x32, 0x00, 0x11, 0x22, 0xE2, 0xAB])).2
      = ((SDS021Parser.ctor 3 ⟨0, sds021_state_want_tail, 7, 9, ⟨1, 2⟩, 5⟩).feed
          ([0xAA] ++ [0xC0, 0x00, 0x00, 0x00, 0x00, 0x00, 0x00, 0x00, 0x00])).2
        ++ [none, none, none, none, none, none, none, none,
          some { pm25 := 125, pm10 := 50 }, none] :=
  (((resync_after_header_free_gap 3 ⟨0, sds021_state_want_tail, 7, 9, ⟨1, 2⟩, 5⟩
      [0xAA]).2.1 [0xC0, 0x00, 0x00, 0x00, 0x00, 0x00, 0x00, 0x00, 0x00]
      (by decide) (by decide)).2 0x7D 0x00 0x32 0x00 0x11 0x22
      (by decide) (by decide) (by decide) (by decide)).1

end SDS021
